import Mathlib

/-!
Shallow embedding of the PySuiteCRM client (src/SuiteCRM.py) and proofs
about its request pipeline, query construction, token endpoint derivation,
pagination and token persistence.

Strings model Python strings; Python slicing `s[:-n]` is modelled on the
character list.  The HTTP transport is modelled as an oracle: a list of
events, one consumed per issued request, each event being either the local
token-expired signal raised by the OAuth transport or an HTTP response
with a status code and a body.
-/

namespace PySuiteCRM

/-- Python slice `s[:-n]`: all characters but the last `n`
(empty when `s` has at most `n` characters). -/
def pySliceToNeg (n : Nat) (s : String) : String :=
  String.mk (s.toList.take (s.toList.length - n))

/-- Substring test on character lists: `needle` occurs contiguously in `hay`. -/
def listHasSub (needle : List Char) : List Char → Bool
  | [] => needle.isEmpty
  | c :: t => needle.isPrefixOf (c :: t) || listHasSub needle t

/-- Python `needle in hay` on strings. -/
def strContains (hay needle : String) : Bool :=
  listHasSub needle.toList hay.toList

/-- Python `hay.endswith(needle)` (used only to state properties). -/
def strEndsWith (hay needle : String) : Bool :=
  needle.toList.isSuffixOf hay.toList

/-- A filter value in `Module.get`: either a literal value (Python non-dict,
implying equality) or a structured `{operator, value}` dictionary. -/
inductive FilterValue where
  | lit (v : String)
  | op (operator : String) (value : String)
  deriving Repr, DecidableEq

/-- The fixed operator table of `Module.get` (src/SuiteCRM.py line 303). -/
def operators : List (String × String) :=
  [("=", "EQ"), ("<>", "NEQ"), (">", "GT"), (">=", "GTE"), ("<", "LT"), ("<=", "LTE")]

/-- The filter-constructor loop of `Module.get` (lines 305-314): appends one
term per filter, each ending in the `and&` conjunction; a structured pair
whose operator is not in the table raises `KeyError` (modelled as
`Except.error` carrying the unknown operator). -/
def filterLoop (url : String) : List (String × FilterValue) → Except String String
  | [] => .ok url
  | (field, .lit v) :: rest =>
      filterLoop (url ++ "[" ++ field ++ "][eq]=" ++ v ++ "and&") rest
  | (field, .op o v) :: rest =>
      match operators.lookup o with
      | none => .error o
      | some opName =>
          filterLoop (url ++ "[" ++ field ++ "][" ++ opName ++ "]=" ++ v ++ "and&") rest

/-- The fields constructor of `Module.get` (lines 295-300): the base module
path, the optional field-selection clause and the filter opener.
`fields = []` models Python `fields=None` (both are falsy). -/
def startUrl (module_name : String) (fields : List String) : String :=
  if fields ≠ [] then
    "/module/" ++ module_name ++ "?fields[" ++ module_name ++ "]=" ++
      String.intercalate "," fields ++ "&filter"
  else
    "/module/" ++ module_name ++ "?filter"

/-- The URL construction of `Module.get` (src/SuiteCRM.py lines 295-319):
fields clause, filter opener, filter loop, unconditional `url[:-4]`, then
the descending sort clause.  `sort = ""` models the absent sort. -/
def get_url (module_name : String) (fields : List String) (sort : String)
    (filters : List (String × FilterValue)) : Except String String :=
  match filterLoop (startUrl module_name fields) filters with
  | .error e => .error e
  | .ok url1 =>
      let url2 := pySliceToNeg 4 url1
      .ok (if sort ≠ "" then url2 ++ "&sort=-" ++ sort else url2)

/-- `Module.get` up to the point where it would call `SuiteCRM.request`
(line 322): returns the built query string together with the number of HTTP
requests issued.  A `KeyError` in the filter loop propagates before the
request is made, so the error case issues zero requests and exposes no
partial query string. -/
def get_build (module_name : String) (fields : List String) (sort : String)
    (filters : List (String × FilterValue)) : Except String String × Nat :=
  match get_url module_name fields sort filters with
  | .error e => (.error e, 0)
  | .ok u => (.ok u, 1)

/-- One event of the transport oracle: issuing the HTTP call either raises
the local `TokenExpiredError` signal or yields a response with a status
code and a body. -/
inductive TransportEvent where
  | tokenExpired
  | response (status : Nat) (content : String)
  deriving Repr, DecidableEq

/-- The value of the Python variable `data` at the moment a call is issued
with `data=data`.  `SuiteCRM.request` reuses one variable for the
serialized payload (line 174) and for the HTTP response (lines 182-199),
so a retried call may carry a `Response` object as its body. -/
inductive BodyValue where
  /-- `json.dumps({"data": parameters})` (line 174). -/
  | jsonData (parameters : String)
  /-- a previous HTTP `Response` object, reused as the request body by the
  401-path retry at line 199. -/
  | responseObject (status : Nat) (content : String)
  deriving Repr, DecidableEq

/-- How a logical call through `SuiteCRM.request` ends. -/
inductive RequestOutcome where
  /-- `return json.loads(data.content)` — modelled as the raw body. -/
  | ok (content : String)
  /-- bare `return` on `AttributeError`: the method string resolves to no
  attribute of the OAuth2 session. -/
  | invalidMethod
  /-- an uncaught `TypeError`: the method string resolves to a session
  attribute that is not an HTTP-verb request method, so calling it with a
  single URL argument fails before any HTTP exchange. -/
  | typeError
  /-- `exit(...)` after a second consecutive 401 (line 202). -/
  | unauthorizedExit
  /-- `raise Exception(...)` on a 400 carrying the database-failure marker. -/
  | databaseFailure (content : String)
  /-- a `TokenExpiredError` raised on a retried call propagates uncaught. -/
  | uncaughtTokenExpired
  /-- model artifact: the oracle supplied fewer events than issued calls. -/
  | oracleExhausted
  deriving Repr, DecidableEq

/-- Result of a logical call: its outcome, how many token refreshes
(`_refresh_token`) were performed, and the body sent on each issued (or
attempted) HTTP call, in order.  Every issue uses the same `url` and
`the_method` local variables, so the issues differ at most in their
bodies. -/
structure ExecResult where
  outcome : RequestOutcome
  refreshes : Nat
  calls : List (Option BodyValue)
  deriving Repr, DecidableEq

/-- What `getattr(self.OAuth2Session, method)` followed by a call with one
URL argument does for a given method string. -/
inductive AttrKind where
  /-- an HTTP-verb request method (`get`, `post`, ...): the call issues an
  HTTP request. -/
  | verb
  /-- some other attribute of the session (`headers`, `close`, ...):
  `getattr` succeeds but the subsequent call raises `TypeError` without
  issuing an HTTP request. -/
  | other
  /-- not an attribute at all: `getattr` raises `AttributeError`. -/
  | missing
  deriving Repr, DecidableEq

/-- The HTTP-verb attributes of the underlying `OAuth2Session` that
resolve to request methods. -/
def httpVerbs : List String :=
  ["get", "post", "put", "patch", "delete", "head", "options"]

/-- Modelled from the library surface of `requests_oauthlib.OAuth2Session`
(not part of src/): a partial classification of its attribute names — the
seven HTTP verbs, a representative set of non-verb attributes whose call
with a single URL argument raises `TypeError` with no network activity,
and `missing` otherwise.  The real session has further attributes; the
general theorems are therefore parametric in the classification and only
concrete witnesses and counterexamples use this instance, on the names
listed here. -/
def oauth2SessionAttr (method : String) : AttrKind :=
  if method ∈ httpVerbs then .verb
  else if method ∈ ["headers", "cookies", "params", "proxies", "verify",
      "stream", "cert", "adapters", "hooks", "close", "request", "token"] then
    .other
  else .missing

/-- The database-failure marker test of line 211:
`'Database failure.' in data.content.decode()`. -/
def hasDbFailure (content : String) : Bool :=
  strContains content "Database failure."

/-- Lines 207-214 of `SuiteCRM.request`: after the 401 handling, a 400
response whose body carries the marker raises; anything else is returned
parsed. -/
def finalize (status : Nat) (content : String) (refreshes : Nat)
    (calls : List (Option BodyValue)) : ExecResult :=
  if status = 400 ∧ hasDbFailure content then
    ⟨.databaseFailure content, refreshes, calls⟩
  else
    ⟨.ok content, refreshes, calls⟩

/-- Lines 192-205 of `SuiteCRM.request`: the revoked-token loop.  With
`attempts` starting at 0 and the guard `attempts < 1`, a 401 response
triggers exactly one refresh and one re-issue; a second 401 hits
`exit(...)`.  At this point the Python variable `data` holds the 401
`Response` object, so for a parameter-carrying call the re-issue at line
199 sends that `Response` object as its body, not the original payload. -/
def after401 (parameters : String) (status : Nat) (content : String)
    (events : List TransportEvent) (refreshes : Nat)
    (calls : List (Option BodyValue)) : ExecResult :=
  if status = 401 then
    let retryBody : Option BodyValue :=
      if parameters = "" then none
      else some (.responseObject status content)
    match events with
    | [] => ⟨.oracleExhausted, refreshes + 1, calls⟩
    | .tokenExpired :: _ =>
        ⟨.uncaughtTokenExpired, refreshes + 1, calls ++ [retryBody]⟩
    | .response s2 c2 :: _ =>
        if s2 = 401 then
          ⟨.unauthorizedExit, refreshes + 1, calls ++ [retryBody]⟩
        else finalize s2 c2 (refreshes + 1) (calls ++ [retryBody])
  else finalize status content refreshes calls

/-- `SuiteCRM.request` (src/SuiteCRM.py lines 160-214) over the transport
oracle, parametric in the session's attribute classification `attr`.
A method resolving to no attribute returns `None` before any call is
issued; a non-verb attribute raises `TypeError` when called, also before
any HTTP exchange.  A `TokenExpiredError` on the first issue triggers one
refresh and one retry (lines 185-190) — the assignment to `data` never
completed, so the retry carries the original body; then the 401 loop and
the 400 marker check run on the response obtained. -/
def request (attr : String → AttrKind) (method parameters : String)
    (events : List TransportEvent) : ExecResult :=
  match attr method with
  | .missing => ⟨.invalidMethod, 0, []⟩
  | .other => ⟨.typeError, 0, []⟩
  | .verb =>
      let body1 : Option BodyValue :=
        if parameters = "" then none else some (.jsonData parameters)
      match events with
      | [] => ⟨.oracleExhausted, 0, []⟩
      | .tokenExpired :: rest =>
          match rest with
          | [] => ⟨.oracleExhausted, 1, [body1]⟩
          | .tokenExpired :: _ => ⟨.uncaughtTokenExpired, 1, [body1, body1]⟩
          | .response s c :: rest2 =>
              after401 parameters s c rest2 1 [body1, body1]
      | .response s c :: rest => after401 parameters s c rest 0 [body1]

/-- An outcome that leaves `SuiteCRM.request` abnormally (process exit or
an uncaught exception), so that statements after the call do not run. -/
def isFatal : RequestOutcome → Bool
  | .unauthorizedExit => true
  | .databaseFailure _ => true
  | .uncaughtTokenExpired => true
  | .typeError => true
  | .oracleExhausted => true
  | _ => false

/-- The URL the logout request is issued against
(`f'\x7bself.config.url\x7d\x7burl\x7d'` with `url = '/logout'`, line 156). -/
def logoutUrl (base : String) : String := base ++ "/logout"

/-- `SuiteCRM._logout` (lines 149-158) over the transport oracle and the
content of `AccessToken.txt`: issue the logout request, then overwrite the
token file with the empty string.  The overwrite is reached only when the
request returns; a fatal outcome propagates first.  Returns the final file
content and the request result.  The logout call passes method `'post'`
(an HTTP verb of the real session) and no parameters. -/
def logout (events : List TransportEvent) (store : String) : String × ExecResult :=
  let r := request oauth2SessionAttr "post" "" events
  if isFatal r.outcome then (store, r) else ("", r)

/-- The token-endpoint computation of `SuiteCRM._refresh_token` (line 101):
`self.config.url[:-2] + 'access_token'`. -/
def tk_url (base : String) : String :=
  pySliceToNeg 2 base ++ "access_token"

/-- Follows the spec text, for comparison with `tk_url`: the base URL
with its final path segment removed (everything after the last slash
dropped) and replaced by the literal `access_token`. -/
def specTokenUrl (base : String) : String :=
  String.mk ((base.toList.reverse.dropWhile (fun c => !(c = '/'))).reverse)
    ++ "access_token"

/-- Python `open('AccessToken.txt', 'w+')`: mode `w+` truncates the file
on open, so its content becomes empty regardless of the previous state. -/
def openWPlus (_store : String) : String := ""

/-- The persist step of `SuiteCRM._refresh_token` (lines 113-115): open
the token file in `w+` mode and write the token representation. -/
def refresh_token_save (x : String) (store : String) : String :=
  let opened := openWPlus store
  let _ := opened
  x

/-- The load step of `SuiteCRM._login` (lines 136-141): open the token
file — in `w+` mode — and read it.  Returns the string read together with
the file content after the step. -/
def login_load (store : String) : String × String :=
  let opened := openWPlus store
  (opened, opened)

/-- The page-fetch loop of `Module.get_all` (lines 345-354):
`result = []` then `result.extend(page data)` for each page number. -/
def get_all_loop (pageData : Nat → List String) :
    List Nat → List String → List String
  | [], acc => acc
  | p :: rest, acc => get_all_loop pageData rest (acc ++ pageData p)

/-- `Module.get_all` (lines 327-355) abstracted over the probe response and
the per-page data: `tpMeta` is the `total-pages` value of the probe when
present; `record_per_page` is the page size; `pageData p` is the `data`
list of the page-`p` response.  Returns the accumulated records and the
number of page requests issued after the probe
(`pages = ceil(tp / record_per_page) + 1`, loop over `range(1, pages)`). -/
def get_all (tpMeta : Option Nat) (record_per_page : Nat)
    (pageData : Nat → List String) : List String × Nat :=
  match tpMeta with
  | none => ([], 0)
  | some tp =>
      let pages := (tp + record_per_page - 1) / record_per_page + 1
      let pageNumbers := List.range' 1 (pages - 1)
      (get_all_loop pageData pageNumbers [], pageNumbers.length)

end PySuiteCRM

namespace PySuiteCRM

theorem filterLoop_append (filters : List (String × FilterValue)) :
    ∀ url url1, filterLoop url filters = .ok url1 →
      ∀ pre, filterLoop (pre ++ url) filters = .ok (pre ++ url1) := by
  induction filters with
  | nil =>
      intro url url1 h pre
      simp [filterLoop] at h
      simp [filterLoop, h]
  | cons fv rest ih =>
      intro url url1 h pre
      obtain ⟨field, v⟩ := fv
      cases v with
      | lit w =>
          simp only [filterLoop] at h ⊢
          have := ih _ _ h pre
          simpa [String.append_assoc] using this
      | op o w =>
          simp only [filterLoop] at h ⊢
          cases hop : operators.lookup o with
          | none => simp [hop] at h
          | some nm =>
              simp only [hop] at h ⊢
              have := ih _ _ h pre
              simpa [String.append_assoc] using this

theorem pySliceToNeg_append_and (s : String) :
    pySliceToNeg 4 (s ++ "and&") = s := by
  cases s with
  | mk data =>
      simp only [pySliceToNeg, String.toList]
      show String.mk (((String.mk data ++ "and&").data).take
        (((String.mk data ++ "and&").data).length - 4)) = String.mk data
      rw [String.data_append]
      have hlen : (data ++ "and&".data).length - 4 = data.length := by
        simp [String.length]
      rw [hlen]
      rw [List.take_left]

theorem filterLoop_split (l1 : List (String × FilterValue)) :
    ∀ url u, filterLoop url l1 = .ok u →
      ∀ l2, filterLoop url (l1 ++ l2) = filterLoop u l2 := by
  induction l1 with
  | nil =>
      intro url u h l2
      simp [filterLoop] at h
      simp [h]
  | cons fv rest ih =>
      intro url u h l2
      obtain ⟨field, v⟩ := fv
      cases v with
      | lit w =>
          simp only [filterLoop, List.cons_append] at h ⊢
          exact ih _ _ h l2
      | op o w =>
          simp only [filterLoop, List.cons_append] at h ⊢
          cases hop : operators.lookup o with
          | none => simp [hop] at h
          | some nm =>
              simp only [hop] at h ⊢
              exact ih _ _ h l2

theorem get_all_loop_eq (pageData : Nat → List String) (l : List Nat) :
    ∀ acc, get_all_loop pageData l acc = acc ++ (l.map pageData).flatten := by
  induction l with
  | nil => intro acc; simp [get_all_loop]
  | cons p rest ih =>
      intro acc
      simp [get_all_loop, ih]

theorem finalize_refreshes (s : Nat) (c : String) (r : Nat)
    (cs : List (Option BodyValue)) : (finalize s c r cs).refreshes = r := by
  unfold finalize; split <;> rfl

theorem finalize_calls (s : Nat) (c : String) (r : Nat)
    (cs : List (Option BodyValue)) : (finalize s c r cs).calls = cs := by
  unfold finalize; split <;> rfl

theorem finalize_outcome (s : Nat) (c : String) (r : Nat)
    (cs : List (Option BodyValue)) :
    (finalize s c r cs).outcome = .ok c ∨
      (finalize s c r cs).outcome = .databaseFailure c := by
  unfold finalize; split
  · right; rfl
  · left; rfl

/-- C1 counterexample: for a parameter-carrying call (`post` with payload
`"p"`) whose first response is 401, the single retry is NOT a re-issue of
the same call: its body is the previous 401 `Response` object (the `data`
variable reused at line 199), not the original serialized payload, so the
claim as stated fails at this input. -/
theorem C1_counterexample :
    (request oauth2SessionAttr "post" "p"
        [.response 401 "err", .response 200 "done"]).refreshes = 1 ∧
    (request oauth2SessionAttr "post" "p"
        [.response 401 "err", .response 200 "done"]).calls =
      [some (BodyValue.jsonData "p"), some (BodyValue.responseObject 401 "err")] ∧
    some (BodyValue.jsonData "p") ≠ some (BodyValue.responseObject 401 "err") := by
  decide

/-- C1 (amended): a logical call whose first HTTP response has status 401
performs exactly one token refresh followed by exactly one re-issue against
the same URL and method (two issued calls in total, not one, not three),
and if the retried status is again 401 the call fails fatally via `exit`
(modelled as `unauthorizedExit`); the re-issue is identical to the original
call when the call is bodyless, while for a parameter-carrying call its
body is the previous 401 `Response` object instead of the original
payload. -/
theorem C1_http_401_one_refresh_one_retry (attr : String → AttrKind)
    (method parameters bodyA : String) (s2 : Nat) (bodyB : String)
    (rest : List TransportEvent) (hm : attr method = AttrKind.verb) :
    (request attr method parameters
        (.response 401 bodyA :: .response s2 bodyB :: rest)).refreshes = 1 ∧
    (request attr method parameters
        (.response 401 bodyA :: .response s2 bodyB :: rest)).calls =
      [(if parameters = "" then none else some (BodyValue.jsonData parameters)),
       (if parameters = "" then none
        else some (BodyValue.responseObject 401 bodyA))] ∧
    (parameters = "" →
      (request attr method parameters
          (.response 401 bodyA :: .response s2 bodyB :: rest)).calls =
        [none, none]) ∧
    (s2 = 401 →
      (request attr method parameters
          (.response 401 bodyA :: .response s2 bodyB :: rest)).outcome =
        RequestOutcome.unauthorizedExit) := by
  unfold request
  rw [hm]
  unfold after401
  simp only [if_pos rfl]
  by_cases h2 : s2 = 401
  · subst h2
    by_cases hp : parameters = "" <;>
      simp [hp]
  · by_cases hp : parameters = "" <;>
      simp [h2, hp, finalize_refreshes, finalize_calls]

/-- Witness for the amended C1: a bodyless call (retry identical) and the
double-401 fatal exit, at a concrete trace. -/
theorem C1_witness :
    (request oauth2SessionAttr "get" ""
        [.response 401 "a", .response 401 "b"]).refreshes = 1 ∧
    (request oauth2SessionAttr "get" ""
        [.response 401 "a", .response 401 "b"]).calls = [none, none] ∧
    (request oauth2SessionAttr "get" ""
        [.response 401 "a", .response 401 "b"]).outcome =
      RequestOutcome.unauthorizedExit := by
  have h := C1_http_401_one_refresh_one_retry oauth2SessionAttr "get" "" "a"
    401 "b" [] (by decide)
  exact ⟨h.1, h.2.2.1 rfl, h.2.2.2 rfl⟩

/-- C4: a logical call whose first issue raises the local
`TokenExpiredError` signal and whose retry returns a non-401 response
refreshes the token exactly once and re-issues the same call exactly once —
the retry carries the very same body as the original issue, since the
assignment to `data` never completed — and then proceeds exactly as the
normal tail of `request` (the `finalize` step: the parsed body, or the
database-failure exception); no further retry of any kind occurs. -/
theorem C4_token_expired_one_refresh_one_retry (attr : String → AttrKind)
    (method parameters : String) (s : Nat) (c : String)
    (rest : List TransportEvent) (hm : attr method = AttrKind.verb)
    (hs : s ≠ 401) :
    request attr method parameters (.tokenExpired :: .response s c :: rest) =
      finalize s c 1
        [(if parameters = "" then none else some (BodyValue.jsonData parameters)),
         (if parameters = "" then none
          else some (BodyValue.jsonData parameters))] ∧
    (request attr method parameters
        (.tokenExpired :: .response s c :: rest)).refreshes = 1 ∧
    (request attr method parameters
        (.tokenExpired :: .response s c :: rest)).calls.length = 2 ∧
    (∀ b1 b2, (request attr method parameters
        (.tokenExpired :: .response s c :: rest)).calls = [b1, b2] → b1 = b2) ∧
    ((request attr method parameters
        (.tokenExpired :: .response s c :: rest)).outcome =
        RequestOutcome.ok c ∨
      (request attr method parameters
          (.tokenExpired :: .response s c :: rest)).outcome =
        RequestOutcome.databaseFailure c) := by
  have heq : request attr method parameters
      (.tokenExpired :: .response s c :: rest) =
      finalize s c 1
        [(if parameters = "" then none else some (BodyValue.jsonData parameters)),
         (if parameters = "" then none
          else some (BodyValue.jsonData parameters))] := by
    unfold request
    rw [hm]
    unfold after401
    simp [hs]
  refine ⟨heq, ?_, ?_, ?_, ?_⟩
  · rw [heq]; exact finalize_refreshes ..
  · rw [heq]; rw [finalize_calls]; rfl
  · rw [heq]; rw [finalize_calls]
    intro b1 b2 hb
    have h1 : b1 = (if parameters = "" then none
        else some (BodyValue.jsonData parameters)) := by
      injection hb with hb1 hb2
      exact hb1.symm
    have h2 : b2 = (if parameters = "" then none
        else some (BodyValue.jsonData parameters)) := by
      injection hb with hb1 hb2
      injection hb2 with hb3 hb4
      exact hb3.symm
    rw [h1, h2]
  · rw [heq]; exact finalize_outcome ..

/-- Witness for C4 at a concrete method, payload and transport trace. -/
theorem C4_witness :
    request oauth2SessionAttr "post" "p" [.tokenExpired, .response 200 "body"] =
      finalize 200 "body" 1
        [some (BodyValue.jsonData "p"), some (BodyValue.jsonData "p")] ∧
    (request oauth2SessionAttr "post" "p"
        [.tokenExpired, .response 200 "body"]).refreshes = 1 ∧
    (request oauth2SessionAttr "post" "p"
        [.tokenExpired, .response 200 "body"]).calls.length = 2 := by
  have h := C4_token_expired_one_refresh_one_retry oauth2SessionAttr "post" "p"
    200 "body" [] (by decide) (by decide)
  refine ⟨?_, h.2.1, h.2.2.1⟩
  have h1 := h.1
  simpa using h1

/-- C10 counterexample: `headers` is not a supported HTTP verb, yet the
call does not return `None`: it is an attribute of the session, so
`getattr` succeeds and calling it with one URL argument raises `TypeError`
(still with no HTTP request and no refresh) — the claim's identification
of "not an attribute" with "not a supported HTTP verb" fails here. -/
theorem C10_counterexample :
    "headers" ∉ httpVerbs ∧
    oauth2SessionAttr "headers" = AttrKind.other ∧
    (request oauth2SessionAttr "headers" "" [.response 200 "x"]).outcome =
      RequestOutcome.typeError ∧
    (request oauth2SessionAttr "headers" "" [.response 200 "x"]).outcome ≠
      RequestOutcome.invalidMethod := by
  decide

/-- C10 (amended): calling `SuiteCRM.request` with a method string that
resolves to no attribute of the OAuth2 session — whatever the session's
attribute classification — returns `None` after issuing no network
request and performing no token refresh; for a non-verb attribute the call
instead fails with `TypeError`, likewise before any network activity. -/
theorem C10_unknown_method_returns_none (attr : String → AttrKind)
    (method parameters : String) (events : List TransportEvent)
    (hm : attr method = AttrKind.missing) :
    request attr method parameters events = ⟨.invalidMethod, 0, []⟩ := by
  unfold request
  rw [hm]

/-- Witness for the amended C10 at a concrete unknown method. -/
theorem C10_witness :
    request oauth2SessionAttr "banana" "" [.response 500 "x"] =
      ⟨.invalidMethod, 0, []⟩ :=
  C10_unknown_method_returns_none oauth2SessionAttr "banana" ""
    [.response 500 "x"] (by decide)

/-- C9 counterexample: when the logout request itself fails fatally — here
two consecutive 401 responses, on which `request` calls `exit` — the write
of the empty string to the token file is never reached, so the persisted
token is NOT cleared; the claim that clearing happens regardless of the
outcome is false. -/
theorem C9_counterexample :
    (logout [.response 401 "a", .response 401 "b"] "tok").1 = "tok" ∧
    ("tok" : String) ≠ "" ∧
    (request oauth2SessionAttr "post" ""
        [.response 401 "a", .response 401 "b"]).outcome =
      RequestOutcome.unauthorizedExit := by
  decide

/-- C9 (amended): `_logout` issues its request against
`base_url ++ "/logout"`, and whenever that request returns (any outcome
that is not a fatal exit or uncaught exception) the persisted token is
cleared by writing the empty string. -/
theorem C9_logout_clears_token_on_return (base store : String)
    (events : List TransportEvent)
    (h : isFatal (request oauth2SessionAttr "post" "" events).outcome = false) :
    logoutUrl base = base ++ "/logout" ∧
    (logout events store).1 = "" ∧
    (logout events store).2 = request oauth2SessionAttr "post" "" events := by
  refine ⟨rfl, ?_, ?_⟩ <;> simp [logout, h]

/-- Witness for the amended C9 at a concrete transport trace. -/
theorem C9_witness :
    logoutUrl "https://a/Api/V8" = "https://a/Api/V8" ++ "/logout" ∧
    (logout [.response 200 "bye"] "tok").1 = "" ∧
    (logout [.response 200 "bye"] "tok").2 =
      request oauth2SessionAttr "post" "" [.response 200 "bye"] :=
  C9_logout_clears_token_on_return "https://a/Api/V8" "tok"
    [.response 200 "bye"] (by decide)

/-- C2: with zero filters `Module.get` still strips four characters from
the end of the URL (`url[:-4]` is unconditional), truncating the filter
opener `?filter` to `?fi` — the base URL is corrupted, contradicting the
spec requirement.  Evaluations of the embedded code at the failing inputs,
with and without a fields clause, and the contrasting one-filter case where
exactly the trailing `and&` conjunction is stripped. -/
theorem C2_zero_filters_truncation :
    get_url "Contacts" [] "" [] = .ok "/module/Contacts?fi" ∧
    get_url "Contacts" ["name"] "" [] =
      .ok "/module/Contacts?fields[Contacts]=name&fi" ∧
    get_url "Contacts" [] "" [("status", FilterValue.lit "Active")] =
      .ok "/module/Contacts?filter[status][eq]=Active" :=
  ⟨rfl, rfl, rfl⟩

/-- C8: the load step of `_login` opens `AccessToken.txt` in `w+` mode,
which truncates the file before reading, so a token persisted by
`_refresh_token` is never read back: save of `"tok"` followed by load
yields `""`, not `"tok"` (the clear/load half of the round-trip does hold:
loading after an empty write yields the empty token). -/
theorem C8_save_load_round_trip_broken :
    (login_load (refresh_token_save "tok" "")).1 = "" ∧
    ("tok" : String) ≠ "" ∧
    (login_load (refresh_token_save "" "old")).1 = "" := by
  decide

/-- C3: a structured filter entry maps its operator exactly through the
fixed table (the six lookups stated last); a hit emits the
`[field][OPNAME]=value` clause, and an operator outside the table makes the
build fail with the unknown operator as the error — at whatever position
the entry occurs after any well-formed prefix — issuing no HTTP request and
exposing no partial query string (the error carries only the operator). -/
theorem C3_operator_table (m f o v : String) (fields : List String)
    (sort : String) (pre rest : List (String × FilterValue)) (u : String) :
    (∀ nm, operators.lookup o = some nm →
      get_build m [] "" [(f, FilterValue.op o v)] =
        (.ok ("/module/" ++ m ++ "?filter" ++ "[" ++ f ++ "][" ++ nm ++ "]=" ++ v),
          1)) ∧
    (operators.lookup o = none →
      filterLoop (startUrl m fields) pre = .ok u →
      get_build m fields sort (pre ++ (f, FilterValue.op o v) :: rest) =
        (.error o, 0)) ∧
    operators.lookup "=" = some "EQ" ∧
    operators.lookup "<>" = some "NEQ" ∧
    operators.lookup ">" = some "GT" ∧
    operators.lookup ">=" = some "GTE" ∧
    operators.lookup "<" = some "LT" ∧
    operators.lookup "<=" = some "LTE" := by
  refine ⟨?_, ?_, rfl, rfl, rfl, rfl, rfl, rfl⟩
  · intro nm hop
    unfold get_build get_url
    simp only [filterLoop, hop]
    rw [pySliceToNeg_append_and]
    rfl
  · intro hop hpre
    unfold get_build get_url
    rw [filterLoop_split pre _ _ hpre]
    simp only [filterLoop, hop]

/-- Witness for C3: a table hit and a table miss at concrete inputs. -/
theorem C3_witness :
    get_build "Contacts" [] "" [("age", FilterValue.op ">" "30")] =
      (.ok ("/module/" ++ "Contacts" ++ "?filter" ++ "[" ++ "age" ++ "][" ++
        "GT" ++ "]=" ++ "30"), 1) ∧
    get_build "Contacts" [] "" [("age", FilterValue.op "!=" "30")] =
      (.error "!=", 0) := by
  have h1 := (C3_operator_table "Contacts" "age" ">" "30" [] "" [] []
    (startUrl "Contacts" [])).1 "GT" (by decide)
  have h2 := (C3_operator_table "Contacts" "age" "!=" "30" [] "" [] []
    (startUrl "Contacts" [])).2.1 (by decide) rfl
  exact ⟨h1, by simpa using h2⟩

/-- C5: the spec's example query.  The build yields exactly the string
shown, which selects the `name` field for `Contacts`, contains the two
filter terms joined by the literal `and` conjunction, and ends with the
descending sort clause on `date_entered`. -/
theorem C5_example_query :
    get_url "Contacts" ["name"] "date_entered"
      [("status", FilterValue.lit "Active"),
       ("date_start", FilterValue.op ">" "2020-05-08T09:59:00+00:00")] =
      .ok "/module/Contacts?fields[Contacts]=name&filter[status][eq]=Activeand&[date_start][GT]=2020-05-08T09:59:00+00:00&sort=-date_entered" ∧
    strContains "/module/Contacts?fields[Contacts]=name&filter[status][eq]=Activeand&[date_start][GT]=2020-05-08T09:59:00+00:00&sort=-date_entered" "?fields[Contacts]=name" = true ∧
    strContains "/module/Contacts?fields[Contacts]=name&filter[status][eq]=Activeand&[date_start][GT]=2020-05-08T09:59:00+00:00&sort=-date_entered" "[status][eq]=Active" = true ∧
    strContains "/module/Contacts?fields[Contacts]=name&filter[status][eq]=Activeand&[date_start][GT]=2020-05-08T09:59:00+00:00&sort=-date_entered" "[date_start][GT]=2020-05-08T09:59:00+00:00" = true ∧
    strContains "/module/Contacts?fields[Contacts]=name&filter[status][eq]=Activeand&[date_start][GT]=2020-05-08T09:59:00+00:00&sort=-date_entered" "=Activeand&[date_start]" = true ∧
    strEndsWith "/module/Contacts?fields[Contacts]=name&filter[status][eq]=Activeand&[date_start][GT]=2020-05-08T09:59:00+00:00&sort=-date_entered" "&sort=-date_entered" = true := by
  refine ⟨rfl, ?_, ?_, ?_, ?_, ?_⟩ <;> decide

/-- C6 counterexample: for the base URL `https://a/api`, whose final path
segment has three characters, the code's endpoint
(`url[:-2] + 'access_token'`) is `https://a/aaccess_token`, while replacing
the final path segment gives `https://a/access_token`; the two differ, so
the claim does not hold for every configured base URL. -/
theorem C6_counterexample :
    tk_url "https://a/api" = "https://a/aaccess_token" ∧
    specTokenUrl "https://a/api" = "https://a/access_token" ∧
    tk_url "https://a/api" ≠ specTokenUrl "https://a/api" := by
  refine ⟨rfl, rfl, ?_⟩
  decide

/-- C6 (amended): the token endpoint is the base URL with its final two
characters removed, followed by `access_token`; this coincides with
removing the final path segment exactly when that segment has two
characters (the expected `/V8` deployment form): for any base URL ending
in a slash followed by two non-slash characters the two derivations
agree. -/
theorem C6_token_endpoint_two_char_segment (pre : List Char) (a b : Char)
    (ha : a ≠ '/') (hb : b ≠ '/') :
    tk_url (String.mk (pre ++ ['/', a, b])) =
      specTokenUrl (String.mk (pre ++ ['/', a, b])) := by
  have h1 : (pre ++ ['/', a, b]).take ((pre ++ ['/', a, b]).length - 2) =
      pre ++ ['/'] := by
    have hsplit : pre ++ ['/', a, b] = (pre ++ ['/']) ++ [a, b] := by simp
    have hlen : (pre ++ ['/', a, b]).length - 2 = (pre ++ ['/']).length := by
      simp
    rw [hlen, hsplit, List.take_left]
  have h2 : ((pre ++ ['/', a, b]).reverse.dropWhile
      (fun c => !(c = '/'))).reverse = pre ++ ['/'] := by
    have hrev : (pre ++ ['/', a, b]).reverse = b :: a :: '/' :: pre.reverse := by
      simp
    rw [hrev]
    simp [List.dropWhile_cons, ha, hb]
  show String.mk ((pre ++ ['/', a, b]).take ((pre ++ ['/', a, b]).length - 2))
      ++ "access_token" =
    String.mk (((pre ++ ['/', a, b]).reverse.dropWhile
      (fun c => !(c = '/'))).reverse) ++ "access_token"
  rw [h1, h2]

/-- Witness for the amended C6 at the concrete base URL `https://a/Api/V8`. -/
theorem C6_witness :
    tk_url (String.mk ("https://a/Api".toList ++ ['/', 'V', '8'])) =
      specTokenUrl (String.mk ("https://a/Api".toList ++ ['/', 'V', '8'])) :=
  C6_token_endpoint_two_char_segment "https://a/Api".toList 'V' '8'
    (by decide) (by decide)

/-- C7: `Module.get_all` with no `total-pages` metadata returns the empty
list after zero page requests; with metadata `tp` and page size
`record_per_page` it issues a number of page requests that is exactly the
ceiling of `tp / record_per_page` (the least `j` with `tp ≤ j * size`;
equal to `tp / size` when the size divides `tp`), and the result is the
concatenation of the page data in page order `1, 2, ...`. -/
theorem C7_get_all_pagination (tp record_per_page : Nat)
    (pageData : Nat → List String) (hP : 0 < record_per_page) :
    get_all none record_per_page pageData = ([], 0) ∧
    tp ≤ (get_all (some tp) record_per_page pageData).2 * record_per_page ∧
    (∀ j, tp ≤ j * record_per_page →
      (get_all (some tp) record_per_page pageData).2 ≤ j) ∧
    (record_per_page ∣ tp →
      (get_all (some tp) record_per_page pageData).2 = tp / record_per_page) ∧
    (get_all (some tp) record_per_page pageData).1 =
      ((List.range' 1 ((get_all (some tp) record_per_page pageData).2)).map
        pageData).flatten := by
  have hcount : (get_all (some tp) record_per_page pageData).2 =
      (tp + record_per_page - 1) / record_per_page := by
    unfold get_all
    simp
  refine ⟨rfl, ?_, ?_, ?_, ?_⟩
  · rw [hcount]
    have hdm := Nat.div_add_mod (tp + record_per_page - 1) record_per_page
    have hmod : (tp + record_per_page - 1) % record_per_page < record_per_page :=
      Nat.mod_lt _ hP
    have h : tp ≤ record_per_page * ((tp + record_per_page - 1) /
        record_per_page) := by omega
    calc tp ≤ record_per_page * ((tp + record_per_page - 1) /
          record_per_page) := h
      _ = (tp + record_per_page - 1) / record_per_page * record_per_page :=
          Nat.mul_comm _ _
  · intro j hj
    rw [hcount, Nat.div_le_iff_le_mul_add_pred hP]
    have hj' : tp ≤ record_per_page * j := by
      calc tp ≤ j * record_per_page := hj
        _ = record_per_page * j := Nat.mul_comm _ _
    omega
  · rintro ⟨c, hc⟩
    rw [hcount]
    have h1 : tp + record_per_page - 1 = record_per_page * c +
        (record_per_page - 1) := by omega
    have h2 : tp = record_per_page * c + 0 := by omega
    rw [h1, Nat.mul_add_div hP, h2, Nat.mul_add_div hP]
    simp [Nat.div_eq_of_lt (show record_per_page - 1 < record_per_page by
      omega)]
  · rw [hcount]
    unfold get_all
    simp [get_all_loop_eq]

/-- Witness for C7 at concrete pagination metadata and page sizes. -/
theorem C7_witness :
    get_all none 7 (fun _ => ([] : List String)) = ([], 0) ∧
    10 ≤ (get_all (some 10) 7 (fun _ => ([] : List String))).2 * 7 ∧
    (get_all (some 10) 7 (fun _ => ([] : List String))).2 ≤ 2 ∧
    (get_all (some 14) 7 (fun _ => ([] : List String))).2 = 14 / 7 := by
  have h1 := C7_get_all_pagination 10 7 (fun _ => ([] : List String)) (by decide)
  have h2 := C7_get_all_pagination 14 7 (fun _ => ([] : List String)) (by decide)
  exact ⟨h1.1, h1.2.1, h1.2.2.1 2 (by decide), h2.2.2.2.1 (by decide)⟩

end PySuiteCRM
